import Mathlib

/-!
# Shallow embedding of the CycloneTCP LAN8700 Ethernet PHY driver

This file embeds `src/drivers/phy/lan8700_driver.c` (driver for the SMSC
LAN8700 PHY transceiver) and proves properties of its link-state detection,
speed/duplex decoding and register-access logic.

Modelling choices:

* Register reads go through an oracle `bus : Nat → Nat`: the k-th register
  read performed during one driver invocation returns `bus k % 65536`
  (`lan8700ReadPhyReg` returns a `uint16_t` supplied by the external bus
  transport, which is out of scope and assumed reliable).
* Every externally visible side effect (register read/write on the bus,
  `osSetEvent(&netEvent)`, `nicNotifyLinkChange`, `updateMacConfig`, the
  external-interrupt-driver callbacks) is recorded in an event log carried by
  the driver state, so that theorems can speak about which effects an
  operation performs and in which order.
* The `NetInterface` fields the driver touches (`phyAddr`, `extIntDriver`,
  `linkState`, `linkSpeed`, `duplexMode`, `phyEvent`) are modelled as a
  record; `extIntDriver` is abstracted to the one bit the driver inspects,
  namely whether it is non-NULL.
* The unbounded reset busy-wait in `lan8700Init` is given explicit fuel and
  returns `none` when the fuel runs out while the reset bit is still set;
  every completing execution of the C function corresponds to a `some`
  result.
* `TRACE_*` macros compile to nothing at low trace levels; in
  `lan8700DumpPhyReg` the register reads are macro arguments, hence elided
  together with the trace output. The model takes the compile-time trace
  switch as the boolean `traceDebugOn`.
-/

/-- Modelled from the spec: the fixed compiled-in default PHY address
`LAN8700_PHY_ADDR` declared in `lan8700_driver.h`, which is not under
`src/`. The spec calls it "a fixed default constant"; its numeric value is
irrelevant to every claim. -/
def LAN8700_PHY_ADDR : Nat := 0

/-- Modelled from the spec: PHY register index of the basic control
register (BMCR), from `lan8700_driver.h` (not under `src/`). -/
def LAN8700_PHY_REG_BMCR : Nat := 0

/-- Modelled from the spec: PHY register index of the basic status
register (BMSR), from `lan8700_driver.h` (not under `src/`). -/
def LAN8700_PHY_REG_BMSR : Nat := 1

/-- Modelled from the spec: PHY register index of the interrupt source
flag register (ISR), from `lan8700_driver.h` (not under `src/`). -/
def LAN8700_PHY_REG_ISR : Nat := 29

/-- Modelled from the spec: PHY register index of the interrupt mask
register (IMR), from `lan8700_driver.h` (not under `src/`). -/
def LAN8700_PHY_REG_IMR : Nat := 30

/-- Modelled from the spec: PHY register index of the PHY special
control/status register (PSCSR), from `lan8700_driver.h` (not under
`src/`). -/
def LAN8700_PHY_REG_PSCSR : Nat := 31

/-- Modelled from the spec: soft-reset bit of the control register, from
`lan8700_driver.h` (not under `src/`). -/
def BMCR_RESET : Nat := 0x8000

/-- Modelled from the spec: link-status bit of the basic status register,
from `lan8700_driver.h` (not under `src/`). -/
def BMSR_LINK_STATUS : Nat := 0x0004

/-- Modelled from the spec: auto-negotiation-complete bit of the interrupt
mask/source registers, from `lan8700_driver.h` (not under `src/`). -/
def IMR_AN_COMPLETE : Nat := 0x0040

/-- Modelled from the spec: link-down bit of the interrupt mask/source
registers, from `lan8700_driver.h` (not under `src/`). -/
def IMR_LINK_DOWN : Nat := 0x0010

/-- Modelled from the spec: mask selecting the HCDSPEED mode field of the
PHY special control/status register, from `lan8700_driver.h` (not under
`src/`). -/
def PSCSR_HCDSPEED_MASK : Nat := 0x001C

/-- Modelled from the spec: 10BASE-T encoding of the HCDSPEED field, from
`lan8700_driver.h` (not under `src/`); the spec requires four discrete
encodings. -/
def PSCSR_HCDSPEED_10BT : Nat := 0x0004

/-- Modelled from the spec: 100BASE-TX encoding of the HCDSPEED field,
from `lan8700_driver.h` (not under `src/`). -/
def PSCSR_HCDSPEED_100BTX : Nat := 0x0008

/-- Modelled from the spec: 10BASE-T full-duplex encoding of the HCDSPEED
field, from `lan8700_driver.h` (not under `src/`). -/
def PSCSR_HCDSPEED_10BT_FD : Nat := 0x0014

/-- Modelled from the spec: 100BASE-TX full-duplex encoding of the
HCDSPEED field, from `lan8700_driver.h` (not under `src/`). -/
def PSCSR_HCDSPEED_100BTX_FD : Nat := 0x0018

/-- Modelled from the spec: link speed constant for 10 Mbps
(`NIC_LINK_SPEED_10MBPS`, declared in `core/nic.h`, not under `src/`),
expressed in bit/s. -/
def NIC_LINK_SPEED_10MBPS : Nat := 10000000

/-- Modelled from the spec: link speed constant for 100 Mbps
(`NIC_LINK_SPEED_100MBPS`, declared in `core/nic.h`, not under `src/`),
expressed in bit/s. -/
def NIC_LINK_SPEED_100MBPS : Nat := 100000000

/-- Duplex mode stored in the interface (`NIC_HALF_DUPLEX_MODE`,
`NIC_FULL_DUPLEX_MODE`, and the pre-negotiation unknown value). -/
inductive NicDuplexMode where
  | unknownDuplex
  | halfDuplex
  | fullDuplex

deriving instance DecidableEq for NicDuplexMode

/-- Externally visible side effects of one driver invocation, in the order
they are performed. `readReg`/`writeReg` record the bus address actually
used, the register index and the 16-bit value. -/
inductive Ev where
  | readReg (phyAddr regAddr value : Nat)
  | writeReg (phyAddr regAddr value : Nat)
  | extIntInit
  | extIntEnableIrq
  | extIntDisableIrq
  | setEvent
  | updateMacConfig
  | notifyLinkChange

deriving instance DecidableEq for Ev

/-- The `NetInterface` fields read or written by this driver. `phyAddr` is a
`uint8_t`; `hasExtIntDriver` is `interface->extIntDriver != NULL`. -/
structure Iface where
  phyAddr : Nat
  hasExtIntDriver : Bool
  linkState : Bool
  linkSpeed : Nat
  duplexMode : NicDuplexMode
  phyEvent : Bool

deriving instance DecidableEq for Iface

/-- Driver state threaded through one invocation: the interface record, the
number of register reads performed so far (indexing the bus oracle), and
the log of side effects. -/
structure DriverState where
  iface : Iface
  readCount : Nat
  log : List Ev

deriving instance DecidableEq for DriverState

/-- Fresh state at the entry of a driver function: no reads performed, empty
effect log. -/
def mkState (iface : Iface) : DriverState :=
  { iface := iface, readCount := 0, log := [] }

/-- The `error_t` values this driver can return (`lan8700Init` only ever
returns `NO_ERROR`). -/
inductive ErrorT where
  | noError

deriving instance DecidableEq for ErrorT

/-- Bus-address resolution written inline in `lan8700WritePhyReg`
(lines 238-241): the configured address when `< 32`, otherwise the
compiled-in default. -/
def lan8700WritePhyRegAddr (iface : Iface) : Nat :=
  if iface.phyAddr < 32 then iface.phyAddr else LAN8700_PHY_ADDR

/-- Bus-address resolution written inline in `lan8700ReadPhyReg`
(lines 260-263): the configured address when `< 32`, otherwise the
compiled-in default. -/
def lan8700ReadPhyRegAddr (iface : Iface) : Nat :=
  if iface.phyAddr < 32 then iface.phyAddr else LAN8700_PHY_ADDR

/-- `lan8700WritePhyReg`: resolve the bus address and delegate to
`interface->nicDriver->writePhyReg` (recorded as a `writeReg` event). -/
def lan8700WritePhyReg (s : DriverState) (address data : Nat) : DriverState :=
  { s with log := s.log ++ [Ev.writeReg (lan8700WritePhyRegAddr s.iface) address data] }

/-- `lan8700ReadPhyReg`: resolve the bus address and delegate to
`interface->nicDriver->readPhyReg`; the transport's 16-bit reply is
`bus s.readCount % 65536`. -/
def lan8700ReadPhyReg (bus : Nat → Nat) (s : DriverState) (address : Nat) :
    Nat × DriverState :=
  let value := bus s.readCount % 65536
  (value,
   { s with
       readCount := s.readCount + 1,
       log := s.log ++ [Ev.readReg (lan8700ReadPhyRegAddr s.iface) address value] })

/-- The `switch(value & PSCSR_HCDSPEED_MASK)` statement of
`lan8700EventHandler` (lines 179-206): maps the HCDSPEED field to a
(speed, duplex) pair, keeping the previously stored pair on an
unrecognized encoding (the `default` case only emits a trace warning). -/
def lan8700DecodeSpeedDuplex (value linkSpeed : Nat) (duplexMode : NicDuplexMode) :
    Nat × NicDuplexMode :=
  let m := value &&& PSCSR_HCDSPEED_MASK
  if m = PSCSR_HCDSPEED_10BT then
    (NIC_LINK_SPEED_10MBPS, NicDuplexMode.halfDuplex)
  else if m = PSCSR_HCDSPEED_10BT_FD then
    (NIC_LINK_SPEED_10MBPS, NicDuplexMode.fullDuplex)
  else if m = PSCSR_HCDSPEED_100BTX then
    (NIC_LINK_SPEED_100MBPS, NicDuplexMode.halfDuplex)
  else if m = PSCSR_HCDSPEED_100BTX_FD then
    (NIC_LINK_SPEED_100MBPS, NicDuplexMode.fullDuplex)
  else
    (linkSpeed, duplexMode)

/-- `lan8700Tick` (lines 93-123): when no external interrupt driver is
configured, read BMSR once, decode the link bit, and on a transition set
`phyEvent` and signal `netEvent`; otherwise do nothing. -/
def lan8700Tick (bus : Nat → Nat) (s : DriverState) : DriverState :=
  if s.iface.hasExtIntDriver = false then
    let r := lan8700ReadPhyReg bus s LAN8700_PHY_REG_BMSR
    let value := r.1
    let s1 := r.2
    let linkState : Bool := if value &&& BMSR_LINK_STATUS ≠ 0 then true else false
    if linkState ∧ ¬(s1.iface.linkState = true) then
      { s1 with
          iface := { s1.iface with phyEvent := true },
          log := s1.log ++ [Ev.setEvent] }
    else if ¬(linkState = true) ∧ s1.iface.linkState then
      { s1 with
          iface := { s1.iface with phyEvent := true },
          log := s1.log ++ [Ev.setEvent] }
    else
      s1
  else
    s

/-- `lan8700EnableIrq` (lines 131-136). -/
def lan8700EnableIrq (s : DriverState) : DriverState :=
  if s.iface.hasExtIntDriver then
    { s with log := s.log ++ [Ev.extIntEnableIrq] }
  else
    s

/-- `lan8700DisableIrq` (lines 144-149). -/
def lan8700DisableIrq (s : DriverState) : DriverState :=
  if s.iface.hasExtIntDriver then
    { s with log := s.log ++ [Ev.extIntDisableIrq] }
  else
    s

/-- `lan8700EventHandler` (lines 157-223): read ISR; if a relevant bit is
set, read BMSR twice (latched-status quirk), decide link-up/down on the
second value, on link-up decode PSCSR into speed/duplex and refresh the
MAC configuration, and finally notify the stack of the link change. -/
def lan8700EventHandler (bus : Nat → Nat) (s : DriverState) : DriverState :=
  let r0 := lan8700ReadPhyReg bus s LAN8700_PHY_REG_ISR
  if r0.1 &&& (IMR_AN_COMPLETE ||| IMR_LINK_DOWN) ≠ 0 then
    let r1 := lan8700ReadPhyReg bus r0.2 LAN8700_PHY_REG_BMSR
    let r2 := lan8700ReadPhyReg bus r1.2 LAN8700_PHY_REG_BMSR
    if r2.1 &&& BMSR_LINK_STATUS ≠ 0 then
      let r3 := lan8700ReadPhyReg bus r2.2 LAN8700_PHY_REG_PSCSR
      let s3 := r3.2
      let sd := lan8700DecodeSpeedDuplex r3.1 s3.iface.linkSpeed s3.iface.duplexMode
      let s4 :=
        { s3 with
            iface :=
              { s3.iface with
                  linkSpeed := sd.1, duplexMode := sd.2, linkState := true } }
      { s4 with log := s4.log ++ [Ev.updateMacConfig, Ev.notifyLinkChange] }
    else
      let s3 := { r2.2 with iface := { r2.2.iface with linkState := false } }
      { s3 with log := s3.log ++ [Ev.notifyLinkChange] }
  else
    r0.2

/-- The `while(lan8700ReadPhyReg(interface, LAN8700_PHY_REG_BMCR) & BMCR_RESET);`
loop of `lan8700Init` (line 70), with explicit fuel: `none` models an
execution still spinning after `fuel` reads. -/
def lan8700WaitReset (bus : Nat → Nat) : Nat → DriverState → Option DriverState
  | 0, _ => none
  | fuel + 1, s =>
    let r := lan8700ReadPhyReg bus s LAN8700_PHY_REG_BMCR
    if r.1 &&& BMCR_RESET ≠ 0 then lan8700WaitReset bus fuel r.2 else some r.2

/-- The register loop of `lan8700DumpPhyReg` (lines 280-284) over the given
register indices; each read is an argument of `TRACE_DEBUG`. -/
def lan8700DumpLoop (bus : Nat → Nat) : List Nat → DriverState → DriverState
  | [], s => s
  | i :: rest, s => lan8700DumpLoop bus rest (lan8700ReadPhyReg bus s i).2

/-- `lan8700DumpPhyReg` (lines 275-288): read and trace all 32 PHY
registers. The reads are arguments of the `TRACE_DEBUG` macro, so they are
compiled out together with the trace when the debug trace level is off;
`traceDebugOn` is that compile-time switch. -/
def lan8700DumpPhyReg (traceDebugOn : Bool) (bus : Nat → Nat) (s : DriverState) :
    DriverState :=
  if traceDebugOn then lan8700DumpLoop bus (List.range 32) s else s

/-- `lan8700Init` (lines 58-85): optional external-interrupt-driver init,
soft reset, busy-wait for the reset bit to clear, register dump (trace
level permitting), IMR programming, initial `phyEvent`/`netEvent`
signalling, unconditional `NO_ERROR`. -/
def lan8700Init (traceDebugOn : Bool) (bus : Nat → Nat) (fuel : Nat)
    (s : DriverState) : Option (ErrorT × DriverState) :=
  let s1 := if s.iface.hasExtIntDriver then { s with log := s.log ++ [Ev.extIntInit] } else s
  let s2 := lan8700WritePhyReg s1 LAN8700_PHY_REG_BMCR BMCR_RESET
  match lan8700WaitReset bus fuel s2 with
  | none => none
  | some s3 =>
    let s4 := lan8700DumpPhyReg traceDebugOn bus s3
    let s5 := lan8700WritePhyReg s4 LAN8700_PHY_REG_IMR (IMR_AN_COMPLETE ||| IMR_LINK_DOWN)
    let s6 :=
      { s5 with
          iface := { s5.iface with phyEvent := true },
          log := s5.log ++ [Ev.setEvent] }
    some (ErrorT.noError, s6)

/-- Does the event record a read of the basic status register? -/
def isBmsrRead : Ev → Bool
  | Ev.readReg _ r _ => r == LAN8700_PHY_REG_BMSR
  | _ => false

/-- Does the event record an `osSetEvent(&netEvent)` call? -/
def isSetEvent : Ev → Bool
  | Ev.setEvent => true
  | _ => false

/-- Does the event record an `updateMacConfig` callback invocation? -/
def isUpdateMacConfig : Ev → Bool
  | Ev.updateMacConfig => true
  | _ => false

/-- Does the event record a `nicNotifyLinkChange` call? -/
def isNotifyLinkChange : Ev → Bool
  | Ev.notifyLinkChange => true
  | _ => false

/-- Does the event record any bus register access (read or write)? -/
def isRegAccess : Ev → Bool
  | Ev.readReg _ _ _ => true
  | Ev.writeReg _ _ _ => true
  | _ => false

/-- Concrete bus oracle used for the initialization counterexample and
witness: every read returns 0, so the reset bit reads back clear on the
first wait iteration. -/
def c5Bus : Nat → Nat := fun _ => 0

/-- Concrete interface used for the initialization counterexample and
witness: configured PHY address 5, external interrupt driver present. -/
def c5Iface : Iface := ⟨5, true, false, 0, NicDuplexMode.unknownDuplex, false⟩

/-- The completed initialization run on `c5Bus`/`c5Iface` with the register
dump enabled and fuel 1 (the default pair is never used: the run
completes). -/
def c5Run : ErrorT × DriverState :=
  (lan8700Init true c5Bus 1 (mkState c5Iface)).getD (ErrorT.noError, mkState c5Iface)

/-- Helper: a completing reset busy-wait leaves the interface untouched and
appends to the log exactly a block of BMCR reads at the resolved bus
address. -/
lemma lan8700WaitReset_frame (bus : Nat → Nat) :
    ∀ (fuel : Nat) (s s' : DriverState), lan8700WaitReset bus fuel s = some s' →
      s'.iface = s.iface ∧
      ∃ l, s'.log = s.log ++ l ∧
        ∀ e ∈ l, ∃ v, e = Ev.readReg (lan8700ReadPhyRegAddr s.iface) LAN8700_PHY_REG_BMCR v := by
  intro fuel
  induction fuel with
  | zero =>
    intro s s' h
    simp [lan8700WaitReset] at h
  | succ n ih =>
    intro s s' h
    simp only [lan8700WaitReset, lan8700ReadPhyReg] at h
    split at h
    · obtain ⟨hi, l, hl, hall⟩ := ih _ _ h
      refine ⟨hi, Ev.readReg (lan8700ReadPhyRegAddr s.iface) LAN8700_PHY_REG_BMCR
        (bus s.readCount % 65536) :: l, ?_, ?_⟩
      · simpa using hl
      · intro e he
        rcases List.mem_cons.mp he with h1 | h2
        · exact ⟨bus s.readCount % 65536, h1⟩
        · exact hall e h2
    · cases h
      exact ⟨rfl, [Ev.readReg (lan8700ReadPhyRegAddr s.iface) LAN8700_PHY_REG_BMCR
        (bus s.readCount % 65536)], rfl, by
          intro e he
          rcases List.mem_singleton.mp he with h1
          exact ⟨bus s.readCount % 65536, h1⟩⟩

/-- Helper: the register-dump loop leaves the interface untouched and
appends to the log exactly reads of the listed registers at the resolved
bus address. -/
lemma lan8700DumpLoop_frame (bus : Nat → Nat) :
    ∀ (regs : List Nat) (s : DriverState),
      (lan8700DumpLoop bus regs s).iface = s.iface ∧
      ∃ l, (lan8700DumpLoop bus regs s).log = s.log ++ l ∧
        ∀ e ∈ l, ∃ r v, r ∈ regs ∧ e = Ev.readReg (lan8700ReadPhyRegAddr s.iface) r v := by
  intro regs
  induction regs with
  | nil =>
    intro s
    exact ⟨rfl, [], by simp [lan8700DumpLoop], by simp⟩
  | cons i rest ih =>
    intro s
    obtain ⟨hi, l, hl, hall⟩ := ih (lan8700ReadPhyReg bus s i).2
    refine ⟨hi, Ev.readReg (lan8700ReadPhyRegAddr s.iface) i (bus s.readCount % 65536) :: l,
      ?_, ?_⟩
    · simpa [lan8700DumpLoop, lan8700ReadPhyReg] using hl
    · intro e he
      rcases List.mem_cons.mp he with h1 | h2
      · exact ⟨i, bus s.readCount % 65536, List.mem_cons_self _ _, h1⟩
      · obtain ⟨r, v, hr, he⟩ := hall e h2
        exact ⟨r, v, List.mem_cons_of_mem _ hr, he⟩

/-- Claim C1: when the event handler sees a relevant interrupt bit in the
ISR value, it reads BMSR exactly twice (immediately after the ISR read and
before any further register access), and the stored link state it decides
is a function of the second BMSR read only (`bus 2`); the first BMSR
read's value (`bus 1`) does not appear in the decision. -/
theorem lan8700EventHandler_doubleRead (bus : Nat → Nat) (iface : Iface)
    (h : (bus 0 % 65536) &&& (IMR_AN_COMPLETE ||| IMR_LINK_DOWN) ≠ 0) :
    (lan8700EventHandler bus (mkState iface)).log.countP isBmsrRead = 2 ∧
    (lan8700EventHandler bus (mkState iface)).log.take 3
      = [Ev.readReg (lan8700ReadPhyRegAddr iface) LAN8700_PHY_REG_ISR (bus 0 % 65536),
         Ev.readReg (lan8700ReadPhyRegAddr iface) LAN8700_PHY_REG_BMSR (bus 1 % 65536),
         Ev.readReg (lan8700ReadPhyRegAddr iface) LAN8700_PHY_REG_BMSR (bus 2 % 65536)] ∧
    (lan8700EventHandler bus (mkState iface)).iface.linkState
      = decide ((bus 2 % 65536) &&& BMSR_LINK_STATUS ≠ 0) := by
  by_cases h2 : (bus 2 % 65536) &&& BMSR_LINK_STATUS = 0 <;>
    simp [lan8700EventHandler, lan8700ReadPhyReg, mkState, h, h2, isBmsrRead,
      LAN8700_PHY_REG_ISR, LAN8700_PHY_REG_BMSR, LAN8700_PHY_REG_PSCSR,
      List.countP_cons, List.countP_append]

/-- Witness for C1 at a concrete input (ISR = 0x50, both BMSR reads = 4). -/
theorem lan8700EventHandler_doubleRead_witness :
    (((fun k : Nat => if k = 0 then 80 else 4) 0 % 65536)
        &&& (IMR_AN_COMPLETE ||| IMR_LINK_DOWN) ≠ 0) ∧
    (lan8700EventHandler (fun k => if k = 0 then 80 else 4)
        (mkState ⟨5, true, false, 0, NicDuplexMode.unknownDuplex, false⟩)).log.countP isBmsrRead = 2 ∧
    (lan8700EventHandler (fun k => if k = 0 then 80 else 4)
        (mkState ⟨5, true, false, 0, NicDuplexMode.unknownDuplex, false⟩)).log.take 3
      = [Ev.readReg (lan8700ReadPhyRegAddr ⟨5, true, false, 0, NicDuplexMode.unknownDuplex, false⟩)
           LAN8700_PHY_REG_ISR ((fun k : Nat => if k = 0 then 80 else 4) 0 % 65536),
         Ev.readReg (lan8700ReadPhyRegAddr ⟨5, true, false, 0, NicDuplexMode.unknownDuplex, false⟩)
           LAN8700_PHY_REG_BMSR ((fun k : Nat => if k = 0 then 80 else 4) 1 % 65536),
         Ev.readReg (lan8700ReadPhyRegAddr ⟨5, true, false, 0, NicDuplexMode.unknownDuplex, false⟩)
           LAN8700_PHY_REG_BMSR ((fun k : Nat => if k = 0 then 80 else 4) 2 % 65536)] ∧
    (lan8700EventHandler (fun k => if k = 0 then 80 else 4)
        (mkState ⟨5, true, false, 0, NicDuplexMode.unknownDuplex, false⟩)).iface.linkState
      = decide (((fun k : Nat => if k = 0 then 80 else 4) 2 % 65536) &&& BMSR_LINK_STATUS ≠ 0) := by
  refine ⟨by decide, ?_⟩
  exact lan8700EventHandler_doubleRead (fun k => if k = 0 then 80 else 4)
    ⟨5, true, false, 0, NicDuplexMode.unknownDuplex, false⟩ (by decide)

/-- Claim C2: on the poll path (no external interrupt driver) the tick
operation signals `netEvent` exactly once and leaves `phyEvent` set iff
the link bit decoded from the single BMSR read differs from the stored
link state; otherwise it signals nothing and leaves `phyEvent` as it
was. -/
theorem lan8700Tick_pollTransition (bus : Nat → Nat) (iface : Iface)
    (h : iface.hasExtIntDriver = false) :
    ((lan8700Tick bus (mkState iface)).log.countP isSetEvent
       = if (if (bus 0 % 65536) &&& BMSR_LINK_STATUS ≠ 0 then true else false)
            ≠ iface.linkState then 1 else 0) ∧
    ((lan8700Tick bus (mkState iface)).iface.phyEvent
       = (iface.phyEvent ||
           ((if (bus 0 % 65536) &&& BMSR_LINK_STATUS ≠ 0 then true else false)
              != iface.linkState))) := by
  by_cases hl : iface.linkState <;>
    by_cases hb : (bus 0 % 65536) &&& BMSR_LINK_STATUS = 0 <;>
    simp [lan8700Tick, lan8700ReadPhyReg, mkState, h, hl, hb, isSetEvent]

/-- Witness for C2 at a concrete input (stored state down, BMSR read = 4,
so a Down-to-Up transition fires). -/
theorem lan8700Tick_pollTransition_witness :
    ((⟨5, false, false, 0, NicDuplexMode.unknownDuplex, false⟩ : Iface).hasExtIntDriver = false) ∧
    ((lan8700Tick (fun _ => 4) (mkState ⟨5, false, false, 0, NicDuplexMode.unknownDuplex, false⟩)).log.countP isSetEvent
       = if (if ((fun _ : Nat => 4) 0 % 65536) &&& BMSR_LINK_STATUS ≠ 0 then true else false)
            ≠ (⟨5, false, false, 0, NicDuplexMode.unknownDuplex, false⟩ : Iface).linkState then 1 else 0) ∧
    ((lan8700Tick (fun _ => 4) (mkState ⟨5, false, false, 0, NicDuplexMode.unknownDuplex, false⟩)).iface.phyEvent
       = ((⟨5, false, false, 0, NicDuplexMode.unknownDuplex, false⟩ : Iface).phyEvent ||
           ((if ((fun _ : Nat => 4) 0 % 65536) &&& BMSR_LINK_STATUS ≠ 0 then true else false)
              != (⟨5, false, false, 0, NicDuplexMode.unknownDuplex, false⟩ : Iface).linkState))) :=
  ⟨rfl,
   (lan8700Tick_pollTransition (fun _ => 4)
     ⟨5, false, false, 0, NicDuplexMode.unknownDuplex, false⟩ rfl).1,
   (lan8700Tick_pollTransition (fun _ => 4)
     ⟨5, false, false, 0, NicDuplexMode.unknownDuplex, false⟩ rfl).2⟩

/-- Claim C3: the speed/duplex decoder maps the four valid HCDSPEED
encodings exactly per the table and leaves the previously stored pair
unchanged (total, no failure) on every other encoding. -/
theorem lan8700DecodeSpeedDuplex_table (value linkSpeed : Nat) (duplexMode : NicDuplexMode) :
    (value &&& PSCSR_HCDSPEED_MASK = PSCSR_HCDSPEED_10BT →
       lan8700DecodeSpeedDuplex value linkSpeed duplexMode
         = (NIC_LINK_SPEED_10MBPS, NicDuplexMode.halfDuplex)) ∧
    (value &&& PSCSR_HCDSPEED_MASK = PSCSR_HCDSPEED_10BT_FD →
       lan8700DecodeSpeedDuplex value linkSpeed duplexMode
         = (NIC_LINK_SPEED_10MBPS, NicDuplexMode.fullDuplex)) ∧
    (value &&& PSCSR_HCDSPEED_MASK = PSCSR_HCDSPEED_100BTX →
       lan8700DecodeSpeedDuplex value linkSpeed duplexMode
         = (NIC_LINK_SPEED_100MBPS, NicDuplexMode.halfDuplex)) ∧
    (value &&& PSCSR_HCDSPEED_MASK = PSCSR_HCDSPEED_100BTX_FD →
       lan8700DecodeSpeedDuplex value linkSpeed duplexMode
         = (NIC_LINK_SPEED_100MBPS, NicDuplexMode.fullDuplex)) ∧
    (value &&& PSCSR_HCDSPEED_MASK ∉
        [PSCSR_HCDSPEED_10BT, PSCSR_HCDSPEED_10BT_FD,
         PSCSR_HCDSPEED_100BTX, PSCSR_HCDSPEED_100BTX_FD] →
       lan8700DecodeSpeedDuplex value linkSpeed duplexMode = (linkSpeed, duplexMode)) := by
  refine ⟨?_, ?_, ?_, ?_, ?_⟩ <;> intro h
  · simp [lan8700DecodeSpeedDuplex, h]
  · simp [lan8700DecodeSpeedDuplex, h, PSCSR_HCDSPEED_10BT, PSCSR_HCDSPEED_10BT_FD]
  · simp [lan8700DecodeSpeedDuplex, h, PSCSR_HCDSPEED_10BT, PSCSR_HCDSPEED_10BT_FD,
      PSCSR_HCDSPEED_100BTX]
  · simp [lan8700DecodeSpeedDuplex, h, PSCSR_HCDSPEED_10BT, PSCSR_HCDSPEED_10BT_FD,
      PSCSR_HCDSPEED_100BTX, PSCSR_HCDSPEED_100BTX_FD]
  · simp only [List.mem_cons, List.mem_singleton, not_or] at h
    obtain ⟨h1, h2, h3, h4⟩ := h
    simp [lan8700DecodeSpeedDuplex, h1, h2, h3, h4]

/-- Witness for C3: a 100BASE-TX full-duplex encoding (0x18) and an invalid
encoding (field 0) evaluated concretely. -/
theorem lan8700DecodeSpeedDuplex_table_witness :
    ((24 : Nat) &&& PSCSR_HCDSPEED_MASK = PSCSR_HCDSPEED_100BTX_FD ∧
      lan8700DecodeSpeedDuplex 24 0 NicDuplexMode.unknownDuplex
        = (NIC_LINK_SPEED_100MBPS, NicDuplexMode.fullDuplex)) ∧
    ((3 : Nat) &&& PSCSR_HCDSPEED_MASK ∉
        [PSCSR_HCDSPEED_10BT, PSCSR_HCDSPEED_10BT_FD,
         PSCSR_HCDSPEED_100BTX, PSCSR_HCDSPEED_100BTX_FD] ∧
      lan8700DecodeSpeedDuplex 3 77 NicDuplexMode.halfDuplex = (77, NicDuplexMode.halfDuplex)) :=
  ⟨⟨by decide, (lan8700DecodeSpeedDuplex_table 24 0 NicDuplexMode.unknownDuplex).2.2.2.1 (by decide)⟩,
   ⟨by decide, (lan8700DecodeSpeedDuplex_table 3 77 NicDuplexMode.halfDuplex).2.2.2.2 (by decide)⟩⟩

/-- Claim C4: the event handler notifies the stack exactly once whenever a
relevant ISR bit is set (link up or down alike), and when neither bit is
set it stops after the single ISR read with the interface unchanged and
nothing notified. -/
theorem lan8700EventHandler_notifyGate (bus : Nat → Nat) (iface : Iface) :
    ((bus 0 % 65536) &&& (IMR_AN_COMPLETE ||| IMR_LINK_DOWN) = 0 →
       lan8700EventHandler bus (mkState iface)
         = { iface := iface, readCount := 1,
             log := [Ev.readReg (lan8700ReadPhyRegAddr iface) LAN8700_PHY_REG_ISR
                       (bus 0 % 65536)] }) ∧
    ((bus 0 % 65536) &&& (IMR_AN_COMPLETE ||| IMR_LINK_DOWN) ≠ 0 →
       (lan8700EventHandler bus (mkState iface)).log.countP isNotifyLinkChange = 1) := by
  constructor
  · intro h
    simp [lan8700EventHandler, lan8700ReadPhyReg, mkState, h]
  · intro h
    by_cases h2 : (bus 2 % 65536) &&& BMSR_LINK_STATUS = 0 <;>
      simp [lan8700EventHandler, lan8700ReadPhyReg, mkState, h, h2, isNotifyLinkChange,
        List.countP_cons, List.countP_append]

/-- Witness for C4: both branches evaluated concretely (ISR = 0, and
ISR = 0x50 with the link coming up). -/
theorem lan8700EventHandler_notifyGate_witness :
    (((fun _ : Nat => 0) 0 % 65536) &&& (IMR_AN_COMPLETE ||| IMR_LINK_DOWN) = 0 ∧
      lan8700EventHandler (fun _ => 0)
          (mkState ⟨5, true, false, 0, NicDuplexMode.unknownDuplex, false⟩)
        = { iface := ⟨5, true, false, 0, NicDuplexMode.unknownDuplex, false⟩, readCount := 1,
            log := [Ev.readReg
                      (lan8700ReadPhyRegAddr ⟨5, true, false, 0, NicDuplexMode.unknownDuplex, false⟩)
                      LAN8700_PHY_REG_ISR ((fun _ : Nat => 0) 0 % 65536)] }) ∧
    (((fun _ : Nat => 80) 0 % 65536) &&& (IMR_AN_COMPLETE ||| IMR_LINK_DOWN) ≠ 0 ∧
      (lan8700EventHandler (fun _ => 80)
          (mkState ⟨5, true, false, 0, NicDuplexMode.unknownDuplex, false⟩)).log.countP
          isNotifyLinkChange = 1) :=
  ⟨⟨by decide,
    (lan8700EventHandler_notifyGate (fun _ => 0)
      ⟨5, true, false, 0, NicDuplexMode.unknownDuplex, false⟩).1 (by decide)⟩,
   ⟨by decide,
    (lan8700EventHandler_notifyGate (fun _ => 80)
      ⟨5, true, false, 0, NicDuplexMode.unknownDuplex, false⟩).2 (by decide)⟩⟩

/-- Counterexample to claim C5 as stated: in a completing initialization
with the register dump enabled (`c5Bus`, fuel 1, interface `c5Iface`), the
log ends with the IMR write followed by the `netEvent` signal, while the
32 dump reads (registers 0, 1, 2, ... shown up to register 5) sit between
the reset busy-wait and the IMR write — the dump is not performed last. -/
theorem lan8700Init_dumpNotLast_cex :
    (lan8700Init true c5Bus 1 (mkState c5Iface)).map (fun p => p.2.log.length) = some 37 ∧
    (lan8700Init true c5Bus 1 (mkState c5Iface)).map (fun p => p.2.log.drop 35)
      = some [Ev.writeReg 5 LAN8700_PHY_REG_IMR (IMR_AN_COMPLETE ||| IMR_LINK_DOWN),
              Ev.setEvent] ∧
    (lan8700Init true c5Bus 1 (mkState c5Iface)).map (fun p => p.2.log.take 9)
      = some [Ev.extIntInit,
              Ev.writeReg 5 LAN8700_PHY_REG_BMCR BMCR_RESET,
              Ev.readReg 5 LAN8700_PHY_REG_BMCR 0,
              Ev.readReg 5 0 0, Ev.readReg 5 1 0, Ev.readReg 5 2 0,
              Ev.readReg 5 3 0, Ev.readReg 5 4 0, Ev.readReg 5 5 0] :=
  ⟨rfl, rfl, rfl⟩

/-- Claim C5 (amended): every completing initialization returns
`NO_ERROR`, leaves the pending-event flag set, and its side effects are,
in order: the optional external-interrupt-driver init, the reset write to
BMCR, the busy-wait BMCR reads, the optional register dump (empty when
the debug trace is off), the IMR write enabling the
auto-negotiation-complete and link-down interrupts, and the `netEvent`
signal — i.e. the dump happens after the reset wait and before the IMR
programming, not last. -/
theorem lan8700Init_sequence (traceDebugOn : Bool) (bus : Nat → Nat) (fuel : Nat)
    (iface : Iface) (err : ErrorT) (s' : DriverState)
    (h : lan8700Init traceDebugOn bus fuel (mkState iface) = some (err, s')) :
    err = ErrorT.noError ∧
    s'.iface.phyEvent = true ∧
    ∃ waitReads dumpReads : List Ev,
      (∀ e ∈ waitReads, ∃ v,
         e = Ev.readReg (lan8700ReadPhyRegAddr iface) LAN8700_PHY_REG_BMCR v) ∧
      (traceDebugOn = false → dumpReads = []) ∧
      (∀ e ∈ dumpReads, ∃ r v, r < 32 ∧
         e = Ev.readReg (lan8700ReadPhyRegAddr iface) r v) ∧
      s'.log
        = (if iface.hasExtIntDriver then [Ev.extIntInit] else []) ++
          [Ev.writeReg (lan8700WritePhyRegAddr iface) LAN8700_PHY_REG_BMCR BMCR_RESET] ++
          waitReads ++ dumpReads ++
          [Ev.writeReg (lan8700WritePhyRegAddr iface) LAN8700_PHY_REG_IMR
             (IMR_AN_COMPLETE ||| IMR_LINK_DOWN),
           Ev.setEvent] := by
  by_cases hext : iface.hasExtIntDriver = true
  · by_cases hdump : traceDebugOn = true
    · simp only [lan8700Init, mkState, lan8700WritePhyReg, hext, if_true,
        List.nil_append] at h
      split at h
      · cases h
      · rename_i s3 hw
        injection h with h'
        obtain ⟨he, hs⟩ := Prod.mk.inj h'
        subst he
        subst hs
        obtain ⟨hwif, wl, hwlog, hwall⟩ := lan8700WaitReset_frame bus fuel _ s3 hw
        obtain ⟨hdif, dl, hdlog, hdall⟩ := lan8700DumpLoop_frame bus (List.range 32) s3
        have hwif' : s3.iface = iface := by simpa using hwif
        refine ⟨rfl, rfl, wl, dl, ?_, ?_, ?_, ?_⟩
        · intro e he'
          obtain ⟨v, hv⟩ := hwall e he'
          exact ⟨v, by simpa using hv⟩
        · intro hf
          rw [hf] at hdump
          cases hdump
        · intro e he'
          obtain ⟨r, v, hr, hv⟩ := hdall e he'
          exact ⟨r, v, List.mem_range.mp hr, by simpa [hwif'] using hv⟩
        · simp [lan8700DumpPhyReg, hdump, lan8700WritePhyReg, hdlog, hwlog, hdif, hwif',
            hext, List.append_assoc]
    · simp only [lan8700Init, mkState, lan8700WritePhyReg, hext, if_true,
        List.nil_append] at h
      split at h
      · cases h
      · rename_i s3 hw
        injection h with h'
        obtain ⟨he, hs⟩ := Prod.mk.inj h'
        subst he
        subst hs
        obtain ⟨hwif, wl, hwlog, hwall⟩ := lan8700WaitReset_frame bus fuel _ s3 hw
        have hwif' : s3.iface = iface := by simpa using hwif
        refine ⟨rfl, rfl, wl, [], ?_, fun _ => rfl, by simp, ?_⟩
        · intro e he'
          obtain ⟨v, hv⟩ := hwall e he'
          exact ⟨v, by simpa using hv⟩
        · simp [lan8700DumpPhyReg, hdump, lan8700WritePhyReg, hwlog, hwif',
            hext, List.append_assoc]
  · by_cases hdump : traceDebugOn = true
    · simp only [lan8700Init, mkState, lan8700WritePhyReg, hext, if_false,
        List.nil_append] at h
      split at h
      · cases h
      · rename_i s3 hw
        injection h with h'
        obtain ⟨he, hs⟩ := Prod.mk.inj h'
        subst he
        subst hs
        obtain ⟨hwif, wl, hwlog, hwall⟩ := lan8700WaitReset_frame bus fuel _ s3 hw
        obtain ⟨hdif, dl, hdlog, hdall⟩ := lan8700DumpLoop_frame bus (List.range 32) s3
        have hwif' : s3.iface = iface := by simpa using hwif
        refine ⟨rfl, rfl, wl, dl, ?_, ?_, ?_, ?_⟩
        · intro e he'
          obtain ⟨v, hv⟩ := hwall e he'
          exact ⟨v, by simpa using hv⟩
        · intro hf
          rw [hf] at hdump
          cases hdump
        · intro e he'
          obtain ⟨r, v, hr, hv⟩ := hdall e he'
          exact ⟨r, v, List.mem_range.mp hr, by simpa [hwif'] using hv⟩
        · simp [lan8700DumpPhyReg, hdump, lan8700WritePhyReg, hdlog, hwlog, hdif, hwif',
            hext, List.append_assoc]
    · simp only [lan8700Init, mkState, lan8700WritePhyReg, hext, if_false,
        List.nil_append] at h
      split at h
      · cases h
      · rename_i s3 hw
        injection h with h'
        obtain ⟨he, hs⟩ := Prod.mk.inj h'
        subst he
        subst hs
        obtain ⟨hwif, wl, hwlog, hwall⟩ := lan8700WaitReset_frame bus fuel _ s3 hw
        have hwif' : s3.iface = iface := by simpa using hwif
        refine ⟨rfl, rfl, wl, [], ?_, fun _ => rfl, by simp, ?_⟩
        · intro e he'
          obtain ⟨v, hv⟩ := hwall e he'
          exact ⟨v, by simpa using hv⟩
        · simp [lan8700DumpPhyReg, hdump, lan8700WritePhyReg, hwlog, hwif',
            hext, List.append_assoc]

/-- Witness for the amended C5 at the concrete completing run `c5Run`. -/
theorem lan8700Init_sequence_witness :
    ErrorT.noError = ErrorT.noError ∧
    c5Run.2.iface.phyEvent = true ∧
    ∃ waitReads dumpReads : List Ev,
      (∀ e ∈ waitReads, ∃ v,
         e = Ev.readReg (lan8700ReadPhyRegAddr c5Iface) LAN8700_PHY_REG_BMCR v) ∧
      (true = false → dumpReads = []) ∧
      (∀ e ∈ dumpReads, ∃ r v, r < 32 ∧
         e = Ev.readReg (lan8700ReadPhyRegAddr c5Iface) r v) ∧
      c5Run.2.log
        = (if c5Iface.hasExtIntDriver then [Ev.extIntInit] else []) ++
          [Ev.writeReg (lan8700WritePhyRegAddr c5Iface) LAN8700_PHY_REG_BMCR BMCR_RESET] ++
          waitReads ++ dumpReads ++
          [Ev.writeReg (lan8700WritePhyRegAddr c5Iface) LAN8700_PHY_REG_IMR
             (IMR_AN_COMPLETE ||| IMR_LINK_DOWN),
           Ev.setEvent] :=
  lan8700Init_sequence true c5Bus 1 c5Iface ErrorT.noError c5Run.2 rfl

/-- Claim C6: for every register read and write, the bus address used is
the handle's configured address when it is below 32 and the compiled-in
default `LAN8700_PHY_ADDR` otherwise; the read and write paths resolve by
the identical rule, purely (the interface is untouched and the access
cannot fail). -/
theorem lan8700PhyAddrResolution (iface : Iface) (bus : Nat → Nat)
    (s : DriverState) (reg data : Nat) :
    (iface.phyAddr < 32 →
       lan8700WritePhyRegAddr iface = iface.phyAddr ∧
       lan8700ReadPhyRegAddr iface = iface.phyAddr) ∧
    (32 ≤ iface.phyAddr →
       lan8700WritePhyRegAddr iface = LAN8700_PHY_ADDR ∧
       lan8700ReadPhyRegAddr iface = LAN8700_PHY_ADDR) ∧
    lan8700WritePhyRegAddr iface = lan8700ReadPhyRegAddr iface ∧
    (lan8700WritePhyReg s reg data).log
      = s.log ++ [Ev.writeReg (lan8700WritePhyRegAddr s.iface) reg data] ∧
    (lan8700WritePhyReg s reg data).iface = s.iface ∧
    (lan8700ReadPhyReg bus s reg).2.log
      = s.log ++ [Ev.readReg (lan8700ReadPhyRegAddr s.iface) reg (bus s.readCount % 65536)] ∧
    (lan8700ReadPhyReg bus s reg).2.iface = s.iface := by
  refine ⟨?_, ?_, ?_, rfl, rfl, rfl, rfl⟩
  · intro h
    simp [lan8700WritePhyRegAddr, lan8700ReadPhyRegAddr, h]
  · intro h
    simp [lan8700WritePhyRegAddr, lan8700ReadPhyRegAddr, Nat.not_lt.mpr h]
  · simp [lan8700WritePhyRegAddr, lan8700ReadPhyRegAddr]

/-- Witness for C6 at the out-of-range address 40 (falls back to the
default) and the in-range address 5 (used as configured). -/
theorem lan8700PhyAddrResolution_witness :
    ((40 : Nat) ≥ 32 ∧
      lan8700WritePhyRegAddr ⟨40, false, false, 0, NicDuplexMode.unknownDuplex, false⟩
        = LAN8700_PHY_ADDR ∧
      lan8700ReadPhyRegAddr ⟨40, false, false, 0, NicDuplexMode.unknownDuplex, false⟩
        = LAN8700_PHY_ADDR) ∧
    ((5 : Nat) < 32 ∧
      lan8700WritePhyRegAddr ⟨5, false, false, 0, NicDuplexMode.unknownDuplex, false⟩ = 5 ∧
      lan8700ReadPhyRegAddr ⟨5, false, false, 0, NicDuplexMode.unknownDuplex, false⟩ = 5) :=
  ⟨⟨by decide,
    (lan8700PhyAddrResolution ⟨40, false, false, 0, NicDuplexMode.unknownDuplex, false⟩
      (fun _ => 0) (mkState ⟨40, false, false, 0, NicDuplexMode.unknownDuplex, false⟩) 0 0).2.1
      (by decide)⟩,
   ⟨by decide,
    (lan8700PhyAddrResolution ⟨5, false, false, 0, NicDuplexMode.unknownDuplex, false⟩
      (fun _ => 0) (mkState ⟨5, false, false, 0, NicDuplexMode.unknownDuplex, false⟩) 0 0).1
      (by decide)⟩⟩

/-- Claim C7: in the event handler, with a relevant ISR bit set, link
status present in the second BMSR read and the PSCSR mode field decoding
to 100BASE-TX full-duplex, the stored state becomes (up, 100 Mbps, full)
and `updateMacConfig` runs exactly once; the callback never runs when the
link is decided down or when no relevant ISR bit is set. -/
theorem lan8700EventHandler_macRefresh (bus : Nat → Nat) (iface : Iface) :
    ((bus 0 % 65536) &&& (IMR_AN_COMPLETE ||| IMR_LINK_DOWN) ≠ 0 →
     (bus 2 % 65536) &&& BMSR_LINK_STATUS ≠ 0 →
     (bus 3 % 65536) &&& PSCSR_HCDSPEED_MASK = PSCSR_HCDSPEED_100BTX_FD →
       (lan8700EventHandler bus (mkState iface)).iface.linkState = true ∧
       (lan8700EventHandler bus (mkState iface)).iface.linkSpeed = NIC_LINK_SPEED_100MBPS ∧
       (lan8700EventHandler bus (mkState iface)).iface.duplexMode = NicDuplexMode.fullDuplex ∧
       (lan8700EventHandler bus (mkState iface)).log.countP isUpdateMacConfig = 1) ∧
    ((bus 0 % 65536) &&& (IMR_AN_COMPLETE ||| IMR_LINK_DOWN) ≠ 0 →
     (bus 2 % 65536) &&& BMSR_LINK_STATUS = 0 →
       (lan8700EventHandler bus (mkState iface)).log.countP isUpdateMacConfig = 0) ∧
    ((bus 0 % 65536) &&& (IMR_AN_COMPLETE ||| IMR_LINK_DOWN) = 0 →
       (lan8700EventHandler bus (mkState iface)).log.countP isUpdateMacConfig = 0) := by
  refine ⟨?_, ?_, ?_⟩
  · intro h0 h2 h3
    simp [lan8700EventHandler, lan8700ReadPhyReg, mkState, h0, h2, h3,
      lan8700DecodeSpeedDuplex, PSCSR_HCDSPEED_10BT, PSCSR_HCDSPEED_10BT_FD,
      PSCSR_HCDSPEED_100BTX, PSCSR_HCDSPEED_100BTX_FD, isUpdateMacConfig,
      List.countP_cons, List.countP_append]
  · intro h0 h2
    simp [lan8700EventHandler, lan8700ReadPhyReg, mkState, h0, h2, isUpdateMacConfig,
      List.countP_cons, List.countP_append]
  · intro h0
    simp [lan8700EventHandler, lan8700ReadPhyReg, mkState, h0, isUpdateMacConfig,
      List.countP_cons, List.countP_append]

/-- Witness for C7 at the concrete scenario bus (ISR = 0x50, BMSR reads
with the link bit set, PSCSR = 0x18). -/
theorem lan8700EventHandler_macRefresh_witness :
    ((fun k : Nat => if k = 0 then 80 else if k = 3 then 24 else 4) 0 % 65536)
        &&& (IMR_AN_COMPLETE ||| IMR_LINK_DOWN) ≠ 0 ∧
    ((fun k : Nat => if k = 0 then 80 else if k = 3 then 24 else 4) 2 % 65536)
        &&& BMSR_LINK_STATUS ≠ 0 ∧
    ((fun k : Nat => if k = 0 then 80 else if k = 3 then 24 else 4) 3 % 65536)
        &&& PSCSR_HCDSPEED_MASK = PSCSR_HCDSPEED_100BTX_FD ∧
    ((lan8700EventHandler (fun k => if k = 0 then 80 else if k = 3 then 24 else 4)
        (mkState ⟨5, true, false, 0, NicDuplexMode.unknownDuplex, false⟩)).iface.linkState = true ∧
     (lan8700EventHandler (fun k => if k = 0 then 80 else if k = 3 then 24 else 4)
        (mkState ⟨5, true, false, 0, NicDuplexMode.unknownDuplex, false⟩)).iface.linkSpeed
       = NIC_LINK_SPEED_100MBPS ∧
     (lan8700EventHandler (fun k => if k = 0 then 80 else if k = 3 then 24 else 4)
        (mkState ⟨5, true, false, 0, NicDuplexMode.unknownDuplex, false⟩)).iface.duplexMode
       = NicDuplexMode.fullDuplex ∧
     (lan8700EventHandler (fun k => if k = 0 then 80 else if k = 3 then 24 else 4)
        (mkState ⟨5, true, false, 0, NicDuplexMode.unknownDuplex, false⟩)).log.countP
        isUpdateMacConfig = 1) :=
  ⟨by decide, by decide, by decide,
   (lan8700EventHandler_macRefresh (fun k => if k = 0 then 80 else if k = 3 then 24 else 4)
     ⟨5, true, false, 0, NicDuplexMode.unknownDuplex, false⟩).1 (by decide) (by decide) (by decide)⟩

/-- Claim C8: when an external interrupt driver is configured, the tick
operation is an exact no-op: same state, no reads, no writes, no events. -/
theorem lan8700Tick_irqConfigured_noop (bus : Nat → Nat) (s : DriverState)
    (h : s.iface.hasExtIntDriver = true) :
    lan8700Tick bus s = s := by
  simp [lan8700Tick, h]

/-- Witness for C8 at a concrete state with the interrupt driver
configured. -/
theorem lan8700Tick_irqConfigured_noop_witness :
    (⟨⟨5, true, true, 0, NicDuplexMode.unknownDuplex, false⟩, 0, []⟩ : DriverState).iface.hasExtIntDriver = true ∧
    lan8700Tick (fun _ => 0) ⟨⟨5, true, true, 0, NicDuplexMode.unknownDuplex, false⟩, 0, []⟩
      = ⟨⟨5, true, true, 0, NicDuplexMode.unknownDuplex, false⟩, 0, []⟩ :=
  ⟨by decide,
   lan8700Tick_irqConfigured_noop (fun _ => 0)
     ⟨⟨5, true, true, 0, NicDuplexMode.unknownDuplex, false⟩, 0, []⟩ (by decide)⟩

/-- Claim C9: with a relevant ISR bit set, the link up in the second BMSR
read, but an unrecognized PSCSR mode encoding, the handler still sets the
stored link state up, keeps the previously stored (stale) speed and
duplex, runs `updateMacConfig` once and notifies the stack once — the
invalid encoding suppresses nothing. -/
theorem lan8700EventHandler_invalidMode (bus : Nat → Nat) (iface : Iface)
    (h0 : (bus 0 % 65536) &&& (IMR_AN_COMPLETE ||| IMR_LINK_DOWN) ≠ 0)
    (h2 : (bus 2 % 65536) &&& BMSR_LINK_STATUS ≠ 0)
    (hm : (bus 3 % 65536) &&& PSCSR_HCDSPEED_MASK ∉
        [PSCSR_HCDSPEED_10BT, PSCSR_HCDSPEED_10BT_FD,
         PSCSR_HCDSPEED_100BTX, PSCSR_HCDSPEED_100BTX_FD]) :
    (lan8700EventHandler bus (mkState iface)).iface.linkState = true ∧
    (lan8700EventHandler bus (mkState iface)).iface.linkSpeed = iface.linkSpeed ∧
    (lan8700EventHandler bus (mkState iface)).iface.duplexMode = iface.duplexMode ∧
    (lan8700EventHandler bus (mkState iface)).log.countP isUpdateMacConfig = 1 ∧
    (lan8700EventHandler bus (mkState iface)).log.countP isNotifyLinkChange = 1 := by
  simp only [List.mem_cons, List.mem_singleton, not_or] at hm
  obtain ⟨hm1, hm2, hm3, hm4⟩ := hm
  simp [lan8700EventHandler, lan8700ReadPhyReg, mkState, h0, h2,
    lan8700DecodeSpeedDuplex, hm1, hm2, hm3, hm4, isUpdateMacConfig, isNotifyLinkChange,
    List.countP_cons, List.countP_append]

/-- Witness for C9 at a concrete input (PSCSR mode field 0, stored speed
77 and half duplex survive the link-up). -/
theorem lan8700EventHandler_invalidMode_witness :
    ((fun k : Nat => if k = 0 then 80 else if k = 3 then 3 else 4) 0 % 65536)
        &&& (IMR_AN_COMPLETE ||| IMR_LINK_DOWN) ≠ 0 ∧
    ((fun k : Nat => if k = 0 then 80 else if k = 3 then 3 else 4) 2 % 65536)
        &&& BMSR_LINK_STATUS ≠ 0 ∧
    ((fun k : Nat => if k = 0 then 80 else if k = 3 then 3 else 4) 3 % 65536)
        &&& PSCSR_HCDSPEED_MASK ∉
        [PSCSR_HCDSPEED_10BT, PSCSR_HCDSPEED_10BT_FD,
         PSCSR_HCDSPEED_100BTX, PSCSR_HCDSPEED_100BTX_FD] ∧
    ((lan8700EventHandler (fun k => if k = 0 then 80 else if k = 3 then 3 else 4)
        (mkState ⟨5, true, false, 77, NicDuplexMode.halfDuplex, false⟩)).iface.linkState = true ∧
     (lan8700EventHandler (fun k => if k = 0 then 80 else if k = 3 then 3 else 4)
        (mkState ⟨5, true, false, 77, NicDuplexMode.halfDuplex, false⟩)).iface.linkSpeed = 77 ∧
     (lan8700EventHandler (fun k => if k = 0 then 80 else if k = 3 then 3 else 4)
        (mkState ⟨5, true, false, 77, NicDuplexMode.halfDuplex, false⟩)).iface.duplexMode
       = NicDuplexMode.halfDuplex ∧
     (lan8700EventHandler (fun k => if k = 0 then 80 else if k = 3 then 3 else 4)
        (mkState ⟨5, true, false, 77, NicDuplexMode.halfDuplex, false⟩)).log.countP
        isUpdateMacConfig = 1 ∧
     (lan8700EventHandler (fun k => if k = 0 then 80 else if k = 3 then 3 else 4)
        (mkState ⟨5, true, false, 77, NicDuplexMode.halfDuplex, false⟩)).log.countP
        isNotifyLinkChange = 1) :=
  ⟨by decide, by decide, by decide,
   lan8700EventHandler_invalidMode (fun k => if k = 0 then 80 else if k = 3 then 3 else 4)
     ⟨5, true, false, 77, NicDuplexMode.halfDuplex, false⟩ (by decide) (by decide) (by decide)⟩

/-- Claim C10: the tick operation never writes the stored link state,
speed or duplex (only `phyEvent` among the interface fields can change,
and its new effects are only register accesses and the `netEvent`
signal); initialization and the interrupt enable/disable operations
preserve those three fields as well, leaving the event handler as the
only operation that mutates them. -/
theorem lan8700Tick_frame (bus : Nat → Nat) (s : DriverState)
    (traceDebugOn : Bool) (fuel : Nat) :
    (lan8700Tick bus s).iface.linkState = s.iface.linkState ∧
    (lan8700Tick bus s).iface.linkSpeed = s.iface.linkSpeed ∧
    (lan8700Tick bus s).iface.duplexMode = s.iface.duplexMode ∧
    (lan8700Tick bus s).iface.phyAddr = s.iface.phyAddr ∧
    (lan8700Tick bus s).iface.hasExtIntDriver = s.iface.hasExtIntDriver ∧
    ((lan8700Tick bus s).log.drop s.log.length).countP
        (fun e => !(isRegAccess e || isSetEvent e)) = 0 ∧
    (match lan8700Init traceDebugOn bus fuel s with
     | none => True
     | some p =>
         p.2.iface.linkState = s.iface.linkState ∧
         p.2.iface.linkSpeed = s.iface.linkSpeed ∧
         p.2.iface.duplexMode = s.iface.duplexMode) ∧
    (lan8700EnableIrq s).iface = s.iface ∧
    (lan8700DisableIrq s).iface = s.iface := by
  have htick :
      (lan8700Tick bus s).iface.linkState = s.iface.linkState ∧
      (lan8700Tick bus s).iface.linkSpeed = s.iface.linkSpeed ∧
      (lan8700Tick bus s).iface.duplexMode = s.iface.duplexMode ∧
      (lan8700Tick bus s).iface.phyAddr = s.iface.phyAddr ∧
      (lan8700Tick bus s).iface.hasExtIntDriver = s.iface.hasExtIntDriver ∧
      ((lan8700Tick bus s).log.drop s.log.length).countP
          (fun e => !(isRegAccess e || isSetEvent e)) = 0 := by
    simp only [lan8700Tick, lan8700ReadPhyReg]
    by_cases hext : s.iface.hasExtIntDriver = false
    · by_cases hl : s.iface.linkState <;>
        by_cases hb : bus s.readCount % 65536 &&& BMSR_LINK_STATUS = 0 <;>
        simp [hext, hl, hb, isRegAccess, isSetEvent, List.drop_left]
    · simp [hext]
  have hinit :
      (match lan8700Init traceDebugOn bus fuel s with
       | none => True
       | some p =>
           p.2.iface.linkState = s.iface.linkState ∧
           p.2.iface.linkSpeed = s.iface.linkSpeed ∧
           p.2.iface.duplexMode = s.iface.duplexMode) := by
    simp only [lan8700Init]
    cases hw : lan8700WaitReset bus fuel
        (lan8700WritePhyReg
          (if s.iface.hasExtIntDriver then { s with log := s.log ++ [Ev.extIntInit] } else s)
          LAN8700_PHY_REG_BMCR BMCR_RESET) with
    | none => simp [hw]
    | some s3 =>
      have h3 := (lan8700WaitReset_frame bus fuel _ s3 hw).1
      have h4 := (lan8700DumpLoop_frame bus (List.range 32) s3).1
      have h5 : s3.iface = s.iface := by
        by_cases hext : s.iface.hasExtIntDriver <;>
          simp [lan8700WritePhyReg, hext] at h3 <;> exact h3
      simp only [hw]
      by_cases hdump : traceDebugOn <;>
        simp [lan8700DumpPhyReg, lan8700WritePhyReg, hdump, h4, h5]
  exact ⟨htick.1, htick.2.1, htick.2.2.1, htick.2.2.2.1, htick.2.2.2.2.1,
    htick.2.2.2.2.2, hinit, by
      simp only [lan8700EnableIrq]; split <;> rfl, by
      simp only [lan8700DisableIrq]; split <;> rfl⟩
